import Mathlib

/-!
Shallow embedding of the ESP32 emergency-alert firmware
(`src/Firmware_files/src/main.cpp`).

The firmware is a single cooperative loop over global state.  We embed the
globals as a `DeviceState` record, external inputs (pin reads, the WiFi
status register, UDP replies, HTTP result codes, the millisecond clock) as
environment records, and each C++ function as a pure state transformer that
additionally emits the list of externally visible side effects (`Event`):
EEPROM writes/commits, HTTP POSTs, the captive portal hand-off and the
processor restart.  `ESP.restart()` never returns, so it is embedded by a
`halted` flag; a halted state takes no further steps.

Time is the monotonic `millis()` counter, one value per loop tick; C++
unsigned subtraction `millis() - t0` is embedded as truncated `Nat`
subtraction, which agrees with the source for a monotonic clock.
-/

namespace Esp32Alert

/-- The source struct Config: SSID, password, device name and the
configured flag.  The fixed 32-byte char arrays are embedded as strings. -/
structure Config where
  ssid : String
  password : String
  deviceName : String
  configured : Bool
deriving DecidableEq, Repr

/-- The zeroed Config used by `triggerReset`, a zero-initialized struct in
the source. -/
def blankConfig : Config :=
  { ssid := "", password := "", deviceName := "", configured := false }

/-- Externally visible side effects of a firmware step, in program order. -/
inductive Event where
  | eepromPut (c : Config)
  | eepromCommit
  | httpPost (url : String) (body : String)
  | startPortal
  | restart
deriving DecidableEq, Repr

/-- The global mutable state of the firmware (the file-scope variables of
`main.cpp`), plus the EEPROM contents: `eepromBuf` is the RAM cache written
by `EEPROM.put`, `eeprom` the durable cells written by `EEPROM.commit`.
`ledPin` is the physical level last written with `digitalWrite(ledPin, _)`.
`halted` records that `ESP.restart()` was invoked. -/
structure DeviceState where
  config : Config
  eepromBuf : Config
  eeprom : Config
  alertState : Bool
  lastDebounceTime : Nat
  buttonPressStartTime : Nat
  resetTriggered : Bool
  serverConnected : Bool
  isBlinking : Bool
  lastBlinkTime : Nat
  ledState : Bool
  ledPin : Bool
  lastServerCheckTime : Nat
  halted : Bool
deriving DecidableEq, Repr

/-- Constant debounceDelay in ms. -/
def debounceDelay : Nat := 500

/-- Constant blinkInterval in ms, the fast cadence. -/
def blinkInterval : Nat := 300

/-- Constant serverBlinkInterval in ms, the slow cadence. -/
def serverBlinkInterval : Nat := 1000

/-- Constant serverCheckInterval in ms. -/
def serverCheckInterval : Nat := 10000

/-! ## Discovery client (`improvedDiscoverServer`)

Each attempt broadcasts one datagram, then polls `udp.parsePacket()` while
`millis() - start < 1000`, sleeping 50 ms after each empty poll; so an
attempt polls at offsets 0, 50, …, 950: exactly 20 polls.  The UDP traffic
is an oracle `polls : Nat → Option String` giving the payload available at
the k-th poll overall (attempt `a`, poll `i` is poll `a * 20 + i`).  A reply
is read with `udp.read(buffer, 15)`: at most 15 bytes. -/

/-- Model of udp.read with a 15-byte buffer followed by 0-termination: the first 15 bytes. -/
def readPayload (r : String) : String :=
  String.mk (r.toList.take 15)

/-- Scan `n` consecutive polls starting at index `base`; return the index
and payload of the first poll that has a packet. -/
def scanPolls (polls : Nat → Option String) : Nat → Nat → Option (Nat × String)
  | _, 0 => none
  | base, n + 1 =>
    match polls base with
    | some r => some (base, r)
    | none => scanPolls polls (base + 1) n

/-- One discovery attempt: the 20 polls of attempt `a`. -/
def attemptScan (polls : Nat → Option String) (a : Nat) : Option (Nat × String) :=
  scanPolls polls (a * 20) 20

/-- The function improvedDiscoverServer, unrolled over its three attempts.  Returns the
reply string (truncated to 15 bytes), the elapsed wait in ms, and the number
of broadcasts sent. -/
def improvedDiscoverServer (polls : Nat → Option String) : String × Nat × Nat :=
  match attemptScan polls 0 with
  | some (k, r) => (readPayload r, k % 20 * 50, 1)
  | none =>
    match attemptScan polls 1 with
    | some (k, r) => (readPayload r, 1000 + k % 20 * 50, 2)
    | none =>
      match attemptScan polls 2 with
      | some (k, r) => (readPayload r, 2000 + k % 20 * 50, 3)
      | none => ("", 3000, 3)

/-- The wrapper discoverServer just forwards to `improvedDiscoverServer`. -/
def discoverServer (polls : Nat → Option String) : String :=
  (improvedDiscoverServer polls).1

/-! ## LED (`blinkLED`) -/

/-- The stop path of blinkLED: stop blinking and drive the LED to the alert state
immediately. -/
def blinkLEDStop (s : DeviceState) : DeviceState :=
  { s with isBlinking := false, ledState := s.alertState, ledPin := s.alertState }

/-- The tick path of blinkLED: toggle the LED when blinking and the
interval has elapsed. -/
def blinkLEDTick (interval : Nat) (now : Nat) (s : DeviceState) : DeviceState :=
  let actualInterval := if interval > 0 then interval else blinkInterval
  if s.isBlinking && decide (now - s.lastBlinkTime > actualInterval) then
    { s with lastBlinkTime := now, ledState := !s.ledState, ledPin := !s.ledState }
  else s

/-! ## WiFi association loops

`enhancedWiFiConnect` and `reconnectWiFi` poll `WiFi.status()` in a bounded
`while` loop, then re-read it once more in the final `if`.  Successive reads
are an oracle `status : Nat → Bool` (`true` = `WL_CONNECTED`), indexed by
read count.  `firstTrue status n i` is the read index at which the loop
exits: the first index at which `status` is `true`, or `i + n` when the
attempt budget runs out. -/

def firstTrue (status : Nat → Bool) : Nat → Nat → Nat
  | 0, i => i
  | n + 1, i => if status i then i else firstTrue status n (i + 1)

/-- Environment of `reconnectWiFi`: the WiFi status reads and the UDP
oracle for the discovery it performs on success. -/
structure ReconnEnv where
  status : Nat → Bool
  polls : Nat → Option String

/-- The value of the final `WiFi.status() == WL_CONNECTED` test in
`reconnectWiFi` (read index one past the loop exit, budget 5 attempts). -/
def reconnectOk (env : ReconnEnv) : Bool :=
  env.status (firstTrue env.status 5 0 + 1)

/-- The function reconnectWiFi: bounded 5-attempt retry; on WiFi success re-run
discovery, setting `serverConnected` and the blink flag accordingly; on
failure return `false` with `serverConnected` cleared. -/
def reconnectWiFi (env : ReconnEnv) (s : DeviceState) : Bool × DeviceState :=
  let s1 := { s with isBlinking := true }
  if reconnectOk env then
    let serverIP := discoverServer env.polls
    if serverIP = "" then
      (true, { s1 with serverConnected := false, isBlinking := true })
    else
      (true, blinkLEDStop { s1 with serverConnected := true })
  else
    (false, { s1 with serverConnected := false })

/-! ## Alert send (`sendAlert`, `toggleAlertState`) -/

/-- Environment of one `sendAlert` call: the `WiFi.status()` read at entry,
the reconnect environment used when that read is disconnected, the UDP
oracle for the send-side discovery, and the `http.POST` result code. -/
structure AlertEnv where
  wifiConnected : Bool
  reconn : ReconnEnv
  polls : Nat → Option String
  httpCode : Int

/-- The function sendAlert: reconnect if WiFi is down (reverting on failure), re-run
discovery (reverting on failure), then POST; a positive HTTP code commits,
a non-positive one reverts. -/
def sendAlert (env : AlertEnv) (s : DeviceState) : DeviceState × List Event :=
  let wifiStep : Bool × DeviceState :=
    if env.wifiConnected then (true, s) else reconnectWiFi env.reconn s
  match wifiStep with
  | (false, s1) =>
    ({ s1 with alertState := !s1.alertState, ledState := !s1.alertState,
               ledPin := !s1.alertState }, [])
  | (true, s1) =>
    let serverIP := discoverServer env.polls
    if serverIP = "" then
      ({ s1 with serverConnected := false, isBlinking := true,
                 alertState := !s1.alertState }, [])
    else
      let s2 := { s1 with serverConnected := true }
      let url := "http://" ++ serverIP ++ ":5000/alert"
      let postData := "name=" ++ s2.config.deviceName
      if 0 < env.httpCode then
        (s2, [Event.httpPost url postData])
      else
        ({ s2 with alertState := !s2.alertState, ledState := !s2.alertState,
                   ledPin := !s2.alertState }, [Event.httpPost url postData])

/-- The function toggleAlertState: optimistic flip of the alert state and LED, then
`sendAlert`. -/
def toggleAlertState (env : AlertEnv) (s : DeviceState) : DeviceState × List Event :=
  let s1 := { s with alertState := !s.alertState, ledState := !s.alertState,
                     ledPin := !s.alertState }
  sendAlert env s1

/-- The path condition under which `sendAlert` receives an HTTP response:
WiFi up (directly or after reconnect), discovery non-empty, positive code. -/
def sendCommitted (env : AlertEnv) : Bool :=
  (env.wifiConnected || reconnectOk env.reconn)
    && decide (discoverServer env.polls ≠ "")
    && decide (0 < env.httpCode)

/-! ## Factory reset (`triggerReset`) and provisioning save (`handleSave`) -/

/-- The function triggerReset: LED flash, write a zeroed `Config` to EEPROM, commit,
mark the reset, restart.  `digitalWrite(ledPin, HIGH)` then `LOW` leaves the
pin low; `ESP.restart()` halts the run. -/
def triggerReset (s : DeviceState) : DeviceState × List Event :=
  ({ s with ledPin := false, eepromBuf := blankConfig, eeprom := blankConfig,
            resetTriggered := true, halted := true },
   [Event.eepromPut blankConfig, Event.eepromCommit, Event.restart])

/-- Model of strncpy into a 32-byte field: at most 31 characters survive with the
terminator. -/
def strncpy31 (x : String) : String :=
  String.mk (x.toList.take 31)

/-- The handler handleSave: store the submitted credentials, persist them, restart. -/
def handleSave (ssid password deviceName : String) (s : DeviceState) :
    DeviceState × List Event :=
  let c : Config := { ssid := strncpy31 ssid, password := strncpy31 password,
                      deviceName := strncpy31 deviceName, configured := true }
  ({ s with config := c, eepromBuf := c, eeprom := c, halted := true },
   [Event.eepromPut c, Event.eepromCommit, Event.restart])

/-! ## Initial connect (`enhancedWiFiConnect`) -/

/-- Environment of `enhancedWiFiConnect`: WiFi status reads, discovery
oracle. -/
structure ConnEnv where
  status : Nat → Bool
  polls : Nat → Option String

/-- The value of the final `WiFi.status() == WL_CONNECTED` test in
`enhancedWiFiConnect` (budget 20 attempts). -/
def connectOk (env : ConnEnv) : Bool :=
  env.status (firstTrue env.status 20 0 + 1)

/-- The function enhancedWiFiConnect: bounded 20-attempt association.  On success run
discovery and land in the server-up or server-down state.  On failure clear
`config.configured`, persist it (`EEPROM.put` + `commit`), start the captive
portal and return `false`. -/
def enhancedWiFiConnect (env : ConnEnv) (s : DeviceState) :
    Bool × DeviceState × List Event :=
  if connectOk env then
    let serverIP := discoverServer env.polls
    if serverIP = "" then
      (true, { s with serverConnected := false, isBlinking := true }, [])
    else
      (true, blinkLEDStop { s with serverConnected := true }, [])
  else
    let c := { s.config with configured := false }
    (false,
     { s with config := c, eepromBuf := c, eeprom := c, serverConnected := false },
     [Event.eepromPut c, Event.eepromCommit, Event.startPortal])

/-! ## The main loop (`loop`)

One tick of `loop()` with all external reads supplied by a `TickEnv`.
`WiFi.status()` is read once for the branch tests of the tick and separately
inside `sendAlert` (the source re-reads the register, and the two reads may
disagree when the link drops mid-tick), hence the separate
`alertEnv.wifiConnected`. -/

structure TickEnv where
  now : Nat
  bootPinLow : Bool
  buttonPinLow : Bool
  wifiConnected : Bool
  periodicPolls : Nat → Option String
  alertEnv : AlertEnv
  reconn : ReconnEnv
  saveReq : Option (String × String × String)

/-- The blink interval chosen at the top of `loop()` from the configured
flag, the WiFi status and `serverConnected`. -/
def currentInterval (configured wifiConnected serverConnected : Bool) : Nat :=
  if !configured then blinkInterval
  else if wifiConnected && !serverConnected then serverBlinkInterval
  else blinkInterval

/-- The periodic server-availability check at the top of the connected
branch of `loop()`: every `serverCheckInterval` re-run discovery; an empty
result marks the server lost and starts slow blinking, a reply marks it
found and, when blinking, stops the blinker at the alert level. -/
def periodicServerCheck (env : TickEnv) (s : DeviceState) : DeviceState :=
  if decide (env.now - s.lastServerCheckTime > serverCheckInterval) then
    let s0 := { s with lastServerCheckTime := env.now }
    let serverIP := discoverServer env.periodicPolls
    if serverIP = "" then
      if s0.serverConnected || !s0.isBlinking then
        { s0 with serverConnected := false, isBlinking := true }
      else s0
    else
      if !s0.serverConnected then
        blinkLEDStop { s0 with serverConnected := true }
      else s0
  else s

/-- The alert-button check of `loop()`: fire the toggle when the server is
connected, the sampled pin level is low, and more than `debounceDelay` has
passed since the last fire. -/
def alertButtonCheck (env : TickEnv) (s : DeviceState) : DeviceState × List Event :=
  if s.serverConnected && env.buttonPinLow
      && decide (env.now - s.lastDebounceTime > debounceDelay) then
    toggleAlertState env.alertEnv { s with lastDebounceTime := env.now }
  else
    (s, [])

/-- The tail of a loop tick after the LED and reset-button sections:
periodic server check and alert button when WiFi is up, reconnect attempt
when it is down, captive portal handling when unconfigured. -/
def loopRest (env : TickEnv) (s : DeviceState) : DeviceState × List Event :=
  if s.config.configured && env.wifiConnected then
    alertButtonCheck env (periodicServerCheck env s)
  else if s.config.configured && !env.wifiConnected then
    if decide (env.now - s.lastServerCheckTime > serverCheckInterval) then
      ((reconnectWiFi env.reconn { s with lastServerCheckTime := env.now }).2, [])
    else
      (s, [])
  else
    match env.saveReq with
    | some (a, p, n) => handleSave a p n s
    | none => (s, [])

/-- One iteration of `loop()`.  A halted device (post-restart) does
nothing. -/
def loopStep (env : TickEnv) (s : DeviceState) : DeviceState × List Event :=
  if s.halted then (s, [])
  else
    let s1 :=
      if s.isBlinking then
        blinkLEDTick
          (currentInterval s.config.configured env.wifiConnected s.serverConnected)
          env.now s
      else s
    if env.bootPinLow && !s1.resetTriggered then
      if s1.buttonPressStartTime = 0 then
        loopRest env { s1 with buttonPressStartTime := env.now }
      else if decide (env.now - s1.buttonPressStartTime > 3000) then
        triggerReset s1
      else
        loopRest env s1
    else
      loopRest env { s1 with buttonPressStartTime := 0 }

/-- Run the loop over a sequence of tick environments, accumulating the
emitted events. -/
def runTicks (s : DeviceState) : List TickEnv → DeviceState × List Event
  | [] => (s, [])
  | e :: rest =>
    let (s1, ev1) := loopStep e s
    let (s2, ev2) := runTicks s1 rest
    (s2, ev1 ++ ev2)

/-! ## Concrete example inputs used by witnesses and counterexamples -/

/-- A provisioned configuration. -/
def exConfig : Config :=
  { ssid := "net", password := "pw", deviceName := "dev", configured := true }

/-- A steady server-up state: provisioned, server found, LED solid off. -/
def exState : DeviceState :=
  { config := exConfig, eepromBuf := exConfig, eeprom := exConfig,
    alertState := false, lastDebounceTime := 0, buttonPressStartTime := 0,
    resetTriggered := false, serverConnected := true, isBlinking := false,
    lastBlinkTime := 0, ledState := false, ledPin := false,
    lastServerCheckTime := 0, halted := false }

/-- Variant of exState with the alert already on. -/
def exStateOn : DeviceState :=
  { exState with alertState := true, ledState := true, ledPin := true }

/-- A UDP oracle that never answers. -/
def noPolls : Nat → Option String := fun _ => none

/-- A UDP oracle answering the very first poll. -/
def okPolls : Nat → Option String :=
  fun n => if n = 0 then some "10.0.0.7" else none

/-- WiFi that never associates. -/
def reconnDown : ReconnEnv := { status := fun _ => false, polls := noPolls }

/-- WiFi that associates on the second status read, but whose discovery
gets no reply. -/
def reconnWifiOnly : ReconnEnv :=
  { status := fun i => decide (i ≠ 0), polls := noPolls }

/-- A fully healthy send environment. -/
def alertOk : AlertEnv :=
  { wifiConnected := true, reconn := reconnDown, polls := okPolls, httpCode := 200 }

/-- A send that finds WiFi down, reconnects, whose reconnect-side discovery
times out but whose send-side discovery succeeds, and whose POST gets a
response. -/
def alertWifiDrop : AlertEnv :=
  { wifiConnected := false, reconn := reconnWifiOnly, polls := okPolls,
    httpCode := 200 }

/-- A quiet tick template: no pins active, WiFi up, no UDP replies. -/
def tickQuiet : TickEnv :=
  { now := 1000, bootPinLow := false, buttonPinLow := false, wifiConnected := true,
    periodicPolls := noPolls, alertEnv := alertOk, reconn := reconnDown,
    saveReq := none }

/-- Button pressed while the WiFi register reads down inside `sendAlert`. -/
def tickToggleDrop : TickEnv :=
  { tickQuiet with buttonPinLow := true, alertEnv := alertWifiDrop }

/-- A later quiet tick at 1400 ms. -/
def tickBlinkA : TickEnv := { tickQuiet with now := 1400 }

/-- A later quiet tick at 1800 ms. -/
def tickBlinkB : TickEnv := { tickQuiet with now := 1800 }

/-- Boot pin low, observed at 1000 ms. -/
def tickHoldA : TickEnv :=
  { tickQuiet with bootPinLow := true, wifiConnected := false }

/-- Boot pin still low, observed at 4000 ms (exactly 3000 ms later). -/
def tickHoldB : TickEnv := { tickHoldA with now := 4000 }

/-- Boot pin still low, observed at 4001 ms. -/
def tickHoldC : TickEnv := { tickHoldA with now := 4001 }

/-- Variant of exState with the reset-hold timer already started at 1000 ms. -/
def exHoldState : DeviceState := { exState with buttonPressStartTime := 1000 }

/-- Alert button low at 1000 ms, healthy send. -/
def tickHeldA : TickEnv := { tickQuiet with buttonPinLow := true }

/-- Alert button still low at 1501 ms, healthy send. -/
def tickHeldB : TickEnv := { tickHeldA with now := 1501 }

/-- WiFi that never associates, for the initial connect. -/
def connDown : ConnEnv := { status := fun _ => false, polls := noPolls }

/-! ## Helper lemmas -/

theorem firstTrue_le (status : Nat → Bool) : ∀ n i, firstTrue status n i ≤ i + n
  | 0, i => Nat.le_refl i
  | n + 1, i => by
    unfold firstTrue
    split
    · omega
    · have h := firstTrue_le status n (i + 1)
      omega

theorem reconnectOk_false_of_down (env : ReconnEnv)
    (h : ∀ i, i ≤ 6 → env.status i = false) : reconnectOk env = false := by
  have hb := firstTrue_le env.status 5 0
  exact h _ (by omega)

theorem reconnectWiFi_fst (env : ReconnEnv) (s : DeviceState) :
    (reconnectWiFi env s).1 = reconnectOk env := by
  cases hr : reconnectOk env <;>
    by_cases hd : discoverServer env.polls = "" <;>
      simp [reconnectWiFi, blinkLEDStop, hr, hd]

theorem reconnectWiFi_frame (env : ReconnEnv) (s : DeviceState) :
    (reconnectWiFi env s).2.config = s.config
    ∧ (reconnectWiFi env s).2.eepromBuf = s.eepromBuf
    ∧ (reconnectWiFi env s).2.eeprom = s.eeprom
    ∧ (reconnectWiFi env s).2.alertState = s.alertState
    ∧ (reconnectWiFi env s).2.resetTriggered = s.resetTriggered
    ∧ (reconnectWiFi env s).2.halted = s.halted
    ∧ (reconnectWiFi env s).2.buttonPressStartTime = s.buttonPressStartTime
    ∧ (reconnectWiFi env s).2.lastDebounceTime = s.lastDebounceTime
    ∧ (reconnectWiFi env s).2.lastServerCheckTime = s.lastServerCheckTime := by
  cases hr : reconnectOk env <;>
    by_cases hd : discoverServer env.polls = "" <;>
      simp [reconnectWiFi, blinkLEDStop, hr, hd]

theorem sendAlert_frame (env : AlertEnv) (s : DeviceState) :
    (sendAlert env s).1.config = s.config
    ∧ (sendAlert env s).1.eepromBuf = s.eepromBuf
    ∧ (sendAlert env s).1.eeprom = s.eeprom
    ∧ (sendAlert env s).1.resetTriggered = s.resetTriggered
    ∧ (sendAlert env s).1.halted = s.halted
    ∧ (sendAlert env s).1.buttonPressStartTime = s.buttonPressStartTime
    ∧ (sendAlert env s).1.lastDebounceTime = s.lastDebounceTime
    ∧ (sendAlert env s).1.lastServerCheckTime = s.lastServerCheckTime := by
  cases hw : env.wifiConnected <;>
    cases hr : reconnectOk env.reconn <;>
      by_cases hd : discoverServer env.polls = "" <;>
        by_cases hd2 : discoverServer env.reconn.polls = "" <;>
          by_cases hc : (0 : Int) < env.httpCode <;>
            simp [sendAlert, reconnectWiFi, blinkLEDStop, hw, hr, hd, hd2, hc]

theorem sendAlert_events_shape (env : AlertEnv) (s : DeviceState) :
    (sendAlert env s).2 = []
    ∨ (sendAlert env s).2 =
        [Event.httpPost ("http://" ++ discoverServer env.polls ++ ":5000/alert")
          ("name=" ++ s.config.deviceName)] := by
  cases hw : env.wifiConnected <;>
    cases hr : reconnectOk env.reconn <;>
      by_cases hd : discoverServer env.polls = "" <;>
        by_cases hd2 : discoverServer env.reconn.polls = "" <;>
          by_cases hc : (0 : Int) < env.httpCode <;>
            simp [sendAlert, reconnectWiFi, blinkLEDStop, hw, hr, hd, hd2, hc]

theorem sendAlert_alertState (env : AlertEnv) (s : DeviceState) :
    (sendAlert env s).1.alertState =
      (if sendCommitted env then s.alertState else !s.alertState) := by
  cases hw : env.wifiConnected <;>
    cases hr : reconnectOk env.reconn <;>
      by_cases hd : discoverServer env.polls = "" <;>
        by_cases hd2 : discoverServer env.reconn.polls = "" <;>
          by_cases hc : (0 : Int) < env.httpCode <;>
            simp [sendAlert, sendCommitted, reconnectWiFi, blinkLEDStop,
              hw, hr, hd, hd2, hc]

/-! ## Claim theorems -/

/-- C1: after `toggleAlertState` (the flip followed by `sendAlert`) returns,
the global `alertState` is either the negation of its pre-call value —
exactly when the send committed, i.e. an HTTP response was received
(`sendCommitted`) — or exactly its pre-call value, on WiFi-reconnect
failure, discovery failure, or transport-level send failure; never any
other value. -/
theorem toggle_alert_revertible (env : AlertEnv) (s : DeviceState) :
    ((toggleAlertState env s).1.alertState = !s.alertState
      ∨ (toggleAlertState env s).1.alertState = s.alertState)
    ∧ ((toggleAlertState env s).1.alertState = !s.alertState
        ↔ sendCommitted env = true) := by
  have h := sendAlert_alertState env
    { s with alertState := !s.alertState, ledState := !s.alertState,
             ledPin := !s.alertState }
  simp only [toggleAlertState]
  cases hc : sendCommitted env <;> cases ha : s.alertState <;>
    simp [hc, ha] at h ⊢ <;> simp [h]

/-- C2, counterexample: two toggle calls in the same healthy environment,
from states that differ only in the pre-call (hence also the new)
`alertState`, emit exactly the same HTTP POST.  The POST body is therefore
not a function of the new `AlertState`, contradicting the claim that every
sent request encodes both the device label and the new alert state. -/
theorem alert_body_ignores_alertState :
    (toggleAlertState alertOk exState).2 = (toggleAlertState alertOk exStateOn).2
    ∧ (toggleAlertState alertOk exState).1.alertState
        ≠ (toggleAlertState alertOk exStateOn).1.alertState
    ∧ exState.config.deviceName = exStateOn.config.deviceName := by
  decide

/-- C2, amended: every request `sendAlert` posts carries the body
`name=<deviceName>` — a function of `config.deviceName` alone; the new
`AlertState` is not encoded in the request. -/
theorem alert_body_encodes_name_only (env : AlertEnv) (s : DeviceState)
    (u b : String) (h : Event.httpPost u b ∈ (toggleAlertState env s).2) :
    b = "name=" ++ s.config.deviceName := by
  simp only [toggleAlertState] at h
  rcases sendAlert_events_shape env
      { s with alertState := !s.alertState, ledState := !s.alertState,
               ledPin := !s.alertState } with he | he <;>
    rw [he] at h
  · exact absurd h (List.not_mem_nil _)
  · simp at h
    exact h.2

/-- Witness for `alert_body_encodes_name_only` at a concrete healthy
toggle. -/
theorem alert_body_encodes_name_only_witness :
    Event.httpPost "http://10.0.0.7:5000/alert" "name=dev"
        ∈ (toggleAlertState alertOk exState).2
    ∧ "name=dev" = "name=" ++ exState.config.deviceName :=
  ⟨by decide,
   alert_body_encodes_name_only alertOk exState
     "http://10.0.0.7:5000/alert" "name=dev" (by decide)⟩

theorem loopStep_quiet (env : TickEnv) (s : DeviceState)
    (hh : s.halted = false) (hnb : s.isBlinking = false)
    (hboot : env.bootPinLow = false) :
    loopStep env s = loopRest env { s with buttonPressStartTime := 0 } := by
  simp [loopStep, hh, hnb, hboot]

/-- C3, counterexample: the alert button held continuously low across two
loop ticks 501 ms apart fires the toggle twice — two HTTP POSTs, and the
alert state returns to its initial value.  A continuously held level
therefore does not yield at most one reported event, and no comparison
with a last reported level takes place. -/
theorem debounce_held_level_double_fire :
    tickHeldA.buttonPinLow = true ∧ tickHeldB.buttonPinLow = true
    ∧ tickHeldB.now - tickHeldA.now = 501
    ∧ (runTicks exState [tickHeldA, tickHeldB]).2 =
        [Event.httpPost "http://10.0.0.7:5000/alert" "name=dev",
         Event.httpPost "http://10.0.0.7:5000/alert" "name=dev"]
    ∧ (runTicks exState [tickHeldA, tickHeldB]).1.alertState
        = exState.alertState := by
  decide

/-- C3, amended: the alert-button check is level-triggered.  On a tick with
no boot-pin press, no blinking, a configured device, WiFi up and no
periodic check due, the toggle fires exactly when `serverConnected` holds,
the sampled level is low and strictly more than `debounceDelay` (500 ms)
has passed since the last fire; the sampled level is never compared with a
previously reported level, so two low samples within 500 ms of the last
fire yield one event, while a continuously held low level fires once per
elapsed 500 ms window. -/
theorem debounce_level_triggered (env : TickEnv) (s : DeviceState)
    (hh : s.halted = false) (hnb : s.isBlinking = false)
    (hboot : env.bootPinLow = false)
    (hcfg : s.config.configured = true) (hw : env.wifiConnected = true)
    (hchk : ¬ env.now - s.lastServerCheckTime > serverCheckInterval) :
    loopStep env s =
      (if s.serverConnected && env.buttonPinLow
          && decide (env.now - s.lastDebounceTime > debounceDelay) then
        toggleAlertState env.alertEnv
          { s with buttonPressStartTime := 0, lastDebounceTime := env.now }
      else ({ s with buttonPressStartTime := 0 }, [])) := by
  rw [loopStep_quiet env s hh hnb hboot]
  simp [loopRest, periodicServerCheck, alertButtonCheck, hcfg, hw, hchk]

/-- Witness for `debounce_level_triggered` at a concrete firing tick. -/
theorem debounce_level_triggered_witness :
    (¬ tickHeldA.now - exState.lastServerCheckTime > serverCheckInterval)
    ∧ loopStep tickHeldA exState =
        (if exState.serverConnected && tickHeldA.buttonPinLow
            && decide (tickHeldA.now - exState.lastDebounceTime > debounceDelay) then
          toggleAlertState tickHeldA.alertEnv
            { exState with buttonPressStartTime := 0,
                           lastDebounceTime := tickHeldA.now }
        else ({ exState with buttonPressStartTime := 0 }, [])) :=
  ⟨by decide,
   debounce_level_triggered tickHeldA exState rfl rfl rfl rfl rfl (by decide)⟩

/-- C4, failing input: a toggle during which the WiFi register reads down,
the reconnect succeeds but its discovery times out, and the discovery of the send itself then succeeds, leaves `isBlinking` set with `serverConnected`
true.  On the following ticks the device is in the server-up state with an
unchanged `alertState`, yet the LED output level changes from tick to tick:
the indicator is blinking, not solid at `alertState`, so it is not the
specified function of (ConnectivityState, AlertState). -/
theorem serverup_indicator_not_solid :
    (runTicks exState [tickToggleDrop, tickBlinkA]).1.serverConnected = true
    ∧ (runTicks exState [tickToggleDrop, tickBlinkA, tickBlinkB]).1.serverConnected
        = true
    ∧ (runTicks exState [tickToggleDrop, tickBlinkA]).1.halted = false
    ∧ (runTicks exState [tickToggleDrop, tickBlinkA]).1.alertState
        = (runTicks exState [tickToggleDrop, tickBlinkA, tickBlinkB]).1.alertState
    ∧ (runTicks exState [tickToggleDrop, tickBlinkA]).1.ledPin
        ≠ (runTicks exState [tickToggleDrop, tickBlinkA, tickBlinkB]).1.ledPin := by
  decide

/-- C8, failing input: after the same toggle (WiFi read down inside
`sendAlert`, reconnect succeeds, reconnect-side discovery empty, send-side
discovery succeeds, POST answered) and one later blink tick, the device
sits in the server-up state with no toggle in flight, yet
`ledState = false ≠ alertState = true`: `sendAlert` set `serverConnected`
without clearing `isBlinking`, so the blinker keeps flipping the LED. -/
theorem serverup_led_desync :
    (runTicks exState [tickToggleDrop, tickBlinkA]).1.serverConnected = true
    ∧ (runTicks exState [tickToggleDrop, tickBlinkA]).1.halted = false
    ∧ (runTicks exState [tickToggleDrop, tickBlinkA]).1.isBlinking = true
    ∧ (runTicks exState [tickToggleDrop, tickBlinkA]).1.alertState = true
    ∧ (runTicks exState [tickToggleDrop, tickBlinkA]).1.ledState = false
    ∧ (runTicks exState [tickToggleDrop, tickBlinkA]).1.ledPin = false := by
  decide

theorem scanPolls_split (polls : Nat → Option String) :
    ∀ m base n, scanPolls polls base (m + n) =
      (match scanPolls polls base m with
       | some p => some p
       | none => scanPolls polls (base + m) n)
  | 0, base, n => by simp [scanPolls]
  | m + 1, base, n => by
    have h : m + 1 + n = m + n + 1 := by omega
    rw [h]
    cases hp : polls base with
    | some r => simp [scanPolls, hp]
    | none =>
      simp only [scanPolls, hp]
      rw [scanPolls_split polls m (base + 1) n]
      have h2 : base + 1 + m = base + (m + 1) := by omega
      rw [h2]

theorem scanPolls_sixty_first (polls : Nat → Option String) (p : Nat × String)
    (h0 : attemptScan polls 0 = some p) : scanPolls polls 0 60 = some p := by
  have h := scanPolls_split polls 20 0 40
  simp only [attemptScan, Nat.zero_mul] at h0
  norm_num [h0] at h
  exact h

theorem scanPolls_sixty_second (polls : Nat → Option String) (p : Nat × String)
    (h0 : attemptScan polls 0 = none) (h1 : attemptScan polls 1 = some p) :
    scanPolls polls 0 60 = some p := by
  have h := scanPolls_split polls 20 0 40
  have h' := scanPolls_split polls 20 20 20
  simp only [attemptScan, Nat.zero_mul, Nat.one_mul] at h0 h1
  norm_num [h0] at h
  norm_num [h1] at h'
  rw [h, h']

theorem scanPolls_sixty_third (polls : Nat → Option String)
    (h0 : attemptScan polls 0 = none) (h1 : attemptScan polls 1 = none) :
    scanPolls polls 0 60 = attemptScan polls 2 := by
  have h := scanPolls_split polls 20 0 40
  have h' := scanPolls_split polls 20 20 20
  simp only [attemptScan, Nat.zero_mul, Nat.one_mul] at h0 h1 ⊢
  norm_num [h0] at h
  norm_num [h1] at h'
  rw [h, h']

theorem readPayload_of_short (r : String) (h : r.toList.length ≤ 15) :
    readPayload r = r := by
  unfold readPayload
  rw [List.take_of_length_le h]
  cases r
  rfl

/-- C5: `improvedDiscoverServer` waits at most `3 × 1000` ms, broadcasts at
most 3 request datagrams with the same 1000 ms window each, and returns the
payload of the first reply seen across the at most 60 polls (exactly that
payload whenever the reply fits the 15-byte read buffer), or the empty
string after exhausting all three attempts. -/
theorem discover_bounded (polls : Nat → Option String) :
    (improvedDiscoverServer polls).2.1 ≤ 3 * 1000
    ∧ (improvedDiscoverServer polls).2.2 ≤ 3
    ∧ (∀ k r, scanPolls polls 0 60 = some (k, r) →
        (improvedDiscoverServer polls).1 = readPayload r
        ∧ (r.toList.length ≤ 15 → (improvedDiscoverServer polls).1 = r))
    ∧ (scanPolls polls 0 60 = none →
        (improvedDiscoverServer polls).1 = "" ∧
        (improvedDiscoverServer polls).2.1 = 3 * 1000) := by
  have hmod : ∀ k : Nat, k % 20 * 50 ≤ 950 := fun k => by
    have := Nat.mod_lt k (show 0 < 20 by norm_num)
    omega
  rcases h0 : attemptScan polls 0 with _ | ⟨k0, r0⟩
  · rcases h1 : attemptScan polls 1 with _ | ⟨k1, r1⟩
    · rcases h2 : attemptScan polls 2 with _ | ⟨k2, r2⟩
      · have hsixty : scanPolls polls 0 60 = none := by
          rw [scanPolls_sixty_third polls h0 h1, h2]
        refine ⟨?_, ?_, ?_, ?_⟩
        · simp [improvedDiscoverServer, h0, h1, h2]
        · simp [improvedDiscoverServer, h0, h1, h2]
        · intro k r hkr
          rw [hsixty] at hkr
          exact absurd hkr (by simp)
        · intro _
          simp [improvedDiscoverServer, h0, h1, h2]
      · have hsixty : scanPolls polls 0 60 = some (k2, r2) := by
          rw [scanPolls_sixty_third polls h0 h1, h2]
        refine ⟨?_, ?_, ?_, ?_⟩
        · simp only [improvedDiscoverServer, h0, h1, h2]
          have := hmod k2
          omega
        · simp [improvedDiscoverServer, h0, h1, h2]
        · intro k r hkr
          rw [hsixty] at hkr
          simp only [Option.some.injEq, Prod.mk.injEq] at hkr
          obtain ⟨hk, hr⟩ := hkr
          subst hk
          subst hr
          exact ⟨by simp [improvedDiscoverServer, h0, h1, h2],
                 fun hlen => by
                   simp [improvedDiscoverServer, h0, h1, h2,
                     readPayload_of_short _ hlen]⟩
        · intro hnone
          rw [hsixty] at hnone
          exact absurd hnone (by simp)
    · have hsixty : scanPolls polls 0 60 = some (k1, r1) :=
        scanPolls_sixty_second polls _ h0 h1
      refine ⟨?_, ?_, ?_, ?_⟩
      · simp only [improvedDiscoverServer, h0, h1]
        have := hmod k1
        omega
      · simp [improvedDiscoverServer, h0, h1]
      · intro k r hkr
        rw [hsixty] at hkr
        simp only [Option.some.injEq, Prod.mk.injEq] at hkr
        obtain ⟨hk, hr⟩ := hkr
        subst hk
        subst hr
        exact ⟨by simp [improvedDiscoverServer, h0, h1],
               fun hlen => by
                 simp [improvedDiscoverServer, h0, h1,
                   readPayload_of_short _ hlen]⟩
      · intro hnone
        rw [hsixty] at hnone
        exact absurd hnone (by simp)
  · have hsixty : scanPolls polls 0 60 = some (k0, r0) :=
      scanPolls_sixty_first polls _ h0
    refine ⟨?_, ?_, ?_, ?_⟩
    · simp only [improvedDiscoverServer, h0]
      have := hmod k0
      omega
    · simp [improvedDiscoverServer, h0]
    · intro k r hkr
      rw [hsixty] at hkr
      simp only [Option.some.injEq, Prod.mk.injEq] at hkr
      obtain ⟨hk, hr⟩ := hkr
      subst hk
      subst hr
      exact ⟨by simp [improvedDiscoverServer, h0],
             fun hlen => by
               simp [improvedDiscoverServer, h0, readPayload_of_short _ hlen]⟩
    · intro hnone
      rw [hsixty] at hnone
      exact absurd hnone (by simp)

/-- Witness for `discover_bounded`: a reply at the very first poll is
returned verbatim. -/
theorem discover_bounded_witness :
    scanPolls okPolls 0 60 = some (0, "10.0.0.7")
    ∧ ("10.0.0.7" : String).toList.length ≤ 15
    ∧ (improvedDiscoverServer okPolls).1 = "10.0.0.7" :=
  ⟨by decide, by decide,
   ((discover_bounded okPolls).2.2.1 0 "10.0.0.7" (by decide)).2 (by decide)⟩

/-- C6: if the initial connect never sees `WL_CONNECTED` within its 20
bounded association attempts, `enhancedWiFiConnect` clears
`config.configured`, persists the config (`EEPROM.put` then
`EEPROM.commit`) before handing control to the captive portal, and returns
failure; if association succeeds it runs discovery and lands in the
server-up (solid LED) or server-down (blinking) state without touching
the stored configuration. -/
theorem enhanced_connect_spec (env : ConnEnv) (s : DeviceState) :
    ((∀ i, i ≤ 21 → env.status i = false) →
      enhancedWiFiConnect env s =
        (false,
         { s with config := { s.config with configured := false },
                  eepromBuf := { s.config with configured := false },
                  eeprom := { s.config with configured := false },
                  serverConnected := false },
         [Event.eepromPut { s.config with configured := false },
          Event.eepromCommit, Event.startPortal]))
    ∧ (connectOk env = true →
        (enhancedWiFiConnect env s).1 = true
        ∧ (enhancedWiFiConnect env s).2.1.config = s.config
        ∧ (enhancedWiFiConnect env s).2.1.eeprom = s.eeprom
        ∧ (enhancedWiFiConnect env s).2.1.eepromBuf = s.eepromBuf
        ∧ (enhancedWiFiConnect env s).2.2 = []
        ∧ (discoverServer env.polls = "" →
            (enhancedWiFiConnect env s).2.1.serverConnected = false
            ∧ (enhancedWiFiConnect env s).2.1.isBlinking = true)
        ∧ (discoverServer env.polls ≠ "" →
            (enhancedWiFiConnect env s).2.1.serverConnected = true
            ∧ (enhancedWiFiConnect env s).2.1.isBlinking = false
            ∧ (enhancedWiFiConnect env s).2.1.ledState
                = (enhancedWiFiConnect env s).2.1.alertState)) := by
  constructor
  · intro h
    have hc : connectOk env = false := by
      have hb := firstTrue_le env.status 20 0
      exact h _ (by omega)
    simp [enhancedWiFiConnect, hc]
  · intro hc
    by_cases hd : discoverServer env.polls = "" <;>
      simp [enhancedWiFiConnect, blinkLEDStop, hc, hd]

/-- Witness for `enhanced_connect_spec`: association that never succeeds. -/
theorem enhanced_connect_spec_witness :
    (∀ i, i ≤ 21 → connDown.status i = false)
    ∧ enhancedWiFiConnect connDown exState =
        (false,
         { exState with
             config := { exState.config with configured := false },
             eepromBuf := { exState.config with configured := false },
             eeprom := { exState.config with configured := false },
             serverConnected := false },
         [Event.eepromPut { exState.config with configured := false },
          Event.eepromCommit, Event.startPortal]) :=
  ⟨fun _ _ => rfl,
   (enhanced_connect_spec connDown exState).1 (fun _ _ => rfl)⟩

/-- C7: if `reconnectWiFi` exhausts its 5 bounded retries without WiFi
coming back (every status read in the bounded loop and the final re-read
reports disconnected), it returns `false` and leaves every `DeviceConfig`
field — ssid, password, deviceName, configured — and both the EEPROM cache
and the committed EEPROM contents unchanged. -/
theorem reconnect_failure_frame (env : ReconnEnv) (s : DeviceState)
    (h : ∀ i, i ≤ 6 → env.status i = false) :
    (reconnectWiFi env s).1 = false
    ∧ (reconnectWiFi env s).2.config.ssid = s.config.ssid
    ∧ (reconnectWiFi env s).2.config.password = s.config.password
    ∧ (reconnectWiFi env s).2.config.deviceName = s.config.deviceName
    ∧ (reconnectWiFi env s).2.config.configured = s.config.configured
    ∧ (reconnectWiFi env s).2.eepromBuf = s.eepromBuf
    ∧ (reconnectWiFi env s).2.eeprom = s.eeprom := by
  have hc := reconnectOk_false_of_down env h
  simp [reconnectWiFi, hc]

/-- Witness for `reconnect_failure_frame`: WiFi stays down throughout. -/
theorem reconnect_failure_frame_witness :
    (∀ i, i ≤ 6 → reconnDown.status i = false)
    ∧ ((reconnectWiFi reconnDown exState).1 = false
       ∧ (reconnectWiFi reconnDown exState).2.config.ssid = exState.config.ssid
       ∧ (reconnectWiFi reconnDown exState).2.config.password
           = exState.config.password
       ∧ (reconnectWiFi reconnDown exState).2.config.deviceName
           = exState.config.deviceName
       ∧ (reconnectWiFi reconnDown exState).2.config.configured
           = exState.config.configured
       ∧ (reconnectWiFi reconnDown exState).2.eepromBuf = exState.eepromBuf
       ∧ (reconnectWiFi reconnDown exState).2.eeprom = exState.eeprom) :=
  ⟨fun _ _ => rfl, reconnect_failure_frame reconnDown exState (fun _ _ => rfl)⟩

theorem toggleAlertState_frame_events (env : AlertEnv) (s : DeviceState) :
    (toggleAlertState env s).1.eeprom = s.eeprom
    ∧ (toggleAlertState env s).1.eepromBuf = s.eepromBuf
    ∧ (toggleAlertState env s).1.resetTriggered = s.resetTriggered
    ∧ (toggleAlertState env s).1.halted = s.halted
    ∧ Event.restart ∉ (toggleAlertState env s).2
    ∧ Event.eepromCommit ∉ (toggleAlertState env s).2 := by
  simp only [toggleAlertState]
  set s1 : DeviceState :=
    { s with alertState := !s.alertState, ledState := !s.alertState,
             ledPin := !s.alertState } with hs1
  have hf := sendAlert_frame env s1
  rcases sendAlert_events_shape env s1 with he | he <;>
    simp [he, hf.1, hf.2.1, hf.2.2.1, hf.2.2.2.1, hf.2.2.2.2.1, hs1]

theorem periodicServerCheck_frame (env : TickEnv) (s : DeviceState) :
    (periodicServerCheck env s).config = s.config
    ∧ (periodicServerCheck env s).eeprom = s.eeprom
    ∧ (periodicServerCheck env s).eepromBuf = s.eepromBuf
    ∧ (periodicServerCheck env s).resetTriggered = s.resetTriggered
    ∧ (periodicServerCheck env s).halted = s.halted
    ∧ (periodicServerCheck env s).alertState = s.alertState
    ∧ (periodicServerCheck env s).lastDebounceTime = s.lastDebounceTime
    ∧ (periodicServerCheck env s).buttonPressStartTime
        = s.buttonPressStartTime := by
  by_cases hper : env.now - s.lastServerCheckTime > serverCheckInterval <;>
    by_cases hd : discoverServer env.periodicPolls = "" <;>
      by_cases hsc : s.serverConnected = true <;>
        by_cases hib : s.isBlinking = true <;>
          simp [periodicServerCheck, blinkLEDStop, hper, hd, hsc, hib]

theorem alertButtonCheck_no_persist (env : TickEnv) (s : DeviceState) :
    (alertButtonCheck env s).1.eeprom = s.eeprom
    ∧ (alertButtonCheck env s).1.eepromBuf = s.eepromBuf
    ∧ (alertButtonCheck env s).1.resetTriggered = s.resetTriggered
    ∧ (alertButtonCheck env s).1.halted = s.halted
    ∧ Event.restart ∉ (alertButtonCheck env s).2
    ∧ Event.eepromCommit ∉ (alertButtonCheck env s).2 := by
  by_cases hfire : (s.serverConnected && env.buttonPinLow
      && decide (env.now - s.lastDebounceTime > debounceDelay)) = true
  · simp only [alertButtonCheck, hfire, if_true]
    exact toggleAlertState_frame_events env.alertEnv _
  · simp [alertButtonCheck, hfire]

theorem loopRest_no_persist (env : TickEnv) (s : DeviceState)
    (hcfg : s.config.configured = true) :
    (loopRest env s).1.eeprom = s.eeprom
    ∧ (loopRest env s).1.eepromBuf = s.eepromBuf
    ∧ (loopRest env s).1.resetTriggered = s.resetTriggered
    ∧ (loopRest env s).1.halted = s.halted
    ∧ Event.restart ∉ (loopRest env s).2
    ∧ Event.eepromCommit ∉ (loopRest env s).2 := by
  by_cases hw : env.wifiConnected = true
  · have hp := periodicServerCheck_frame env s
    have hb := alertButtonCheck_no_persist env (periodicServerCheck env s)
    simp only [loopRest, hcfg, hw, Bool.true_and, if_true]
    exact ⟨hb.1.trans hp.2.1, hb.2.1.trans hp.2.2.1,
           hb.2.2.1.trans hp.2.2.2.1, hb.2.2.2.1.trans hp.2.2.2.2.1,
           hb.2.2.2.2.1, hb.2.2.2.2.2⟩
  · rw [Bool.not_eq_true] at hw
    by_cases hper : env.now - s.lastServerCheckTime > serverCheckInterval
    · have hf := reconnectWiFi_frame env.reconn
        { s with lastServerCheckTime := env.now }
      simp only [loopRest, hcfg, hw, Bool.and_false, Bool.false_and,
        Bool.true_and, Bool.not_false, Bool.and_true, if_false, if_true,
        Bool.false_eq_true, hper, decide_True, decide_true_eq_true]
      refine ⟨hf.2.2.1, hf.2.1, hf.2.2.2.2.1, hf.2.2.2.2.2.1, by simp, by simp⟩
    · simp [loopRest, hcfg, hw, hper]

/-- C9, counterexample: boot pin continuously low from 1000 ms to 4000 ms —
a hold of exactly 3000 ms, hence at least 3000 ms — yet the strict loop test
`millis() - start > 3000` test never fires: no EEPROM write, no restart,
the configuration is not cleared. -/
theorem reset_exact_3000_no_clear :
    tickHoldA.bootPinLow = true ∧ tickHoldB.bootPinLow = true
    ∧ tickHoldB.now - tickHoldA.now = 3000
    ∧ (runTicks exState [tickHoldA, tickHoldB]).2 = []
    ∧ (runTicks exState [tickHoldA, tickHoldB]).1.eeprom = exConfig
    ∧ (runTicks exState [tickHoldA, tickHoldB]).1.resetTriggered = false := by
  decide

/-- C9, amended: on a configured, non-blinking, not-yet-halted device with
the boot pin low, the tick whose clock reads strictly more than 3000 ms
past the recorded hold start runs `triggerReset`: the zeroed config is
written and committed to EEPROM before the single restart event; any tick
at most 3000 ms past the hold start performs no EEPROM commit and no
restart and leaves the stored configuration intact; and a restarted
(halted) device takes no further steps, so the restart is invoked exactly
once. -/
theorem factory_reset_gate (env : TickEnv) (s : DeviceState)
    (hh : s.halted = false) (hnb : s.isBlinking = false)
    (hb : env.bootPinLow = true) (hr : s.resetTriggered = false)
    (hcfg : s.config.configured = true) :
    (s.buttonPressStartTime ≠ 0 → env.now - s.buttonPressStartTime > 3000 →
       loopStep env s =
         ({ s with ledPin := false, eepromBuf := blankConfig,
                   eeprom := blankConfig, resetTriggered := true,
                   halted := true },
          [Event.eepromPut blankConfig, Event.eepromCommit, Event.restart]))
    ∧ (¬ env.now - s.buttonPressStartTime > 3000 →
         (loopStep env s).1.eeprom = s.eeprom
         ∧ (loopStep env s).1.resetTriggered = false
         ∧ (loopStep env s).1.halted = false
         ∧ Event.restart ∉ (loopStep env s).2
         ∧ Event.eepromCommit ∉ (loopStep env s).2)
    ∧ (∀ s2 : DeviceState, s2.halted = true → loopStep env s2 = (s2, [])) := by
  refine ⟨?_, ?_, ?_⟩
  · intro hbp hel
    simp [loopStep, triggerReset, hh, hnb, hb, hr, hbp, hel]
  · intro hel
    by_cases hbp : s.buttonPressStartTime = 0
    · simp only [loopStep, hh, hnb, hb, hr, hbp, Bool.false_eq_true,
        if_false, Bool.not_false, Bool.and_true, if_true, if_pos rfl]
      have h := loopRest_no_persist env
        { s with buttonPressStartTime := env.now, resetTriggered := false,
                 isBlinking := false, halted := false } hcfg
      exact ⟨h.1, h.2.2.1, h.2.2.2.1, h.2.2.2.2.1, h.2.2.2.2.2⟩
    · simp only [loopStep, hh, hnb, hb, hr, hbp, hel, Bool.false_eq_true,
        if_false, Bool.not_false, Bool.and_true, if_true, decide_False,
        decide_eq_true_eq]
      have h := loopRest_no_persist env s hcfg
      exact ⟨h.1, h.2.2.1.trans hr, h.2.2.2.1.trans hh,
             h.2.2.2.2.1, h.2.2.2.2.2⟩
  · intro s2 h2
    simp [loopStep, h2]

/-- Witness for `factory_reset_gate`: hold started at 1000 ms, tick at
4001 ms. -/
theorem factory_reset_gate_witness :
    exHoldState.buttonPressStartTime ≠ 0
    ∧ tickHoldC.now - exHoldState.buttonPressStartTime > 3000
    ∧ loopStep tickHoldC exHoldState =
        ({ exHoldState with ledPin := false, eepromBuf := blankConfig,
                            eeprom := blankConfig, resetTriggered := true,
                            halted := true },
         [Event.eepromPut blankConfig, Event.eepromCommit, Event.restart]) :=
  ⟨by decide, by decide,
   (factory_reset_gate tickHoldC exHoldState rfl rfl rfl rfl rfl).1
     (by decide) (by decide)⟩

theorem toggleAlertState_commit (env : AlertEnv) (s : DeviceState)
    (hw : env.wifiConnected = true) (hd : discoverServer env.polls ≠ "")
    (hc : 0 < env.httpCode) :
    toggleAlertState env s =
      ({ s with alertState := !s.alertState, ledState := !s.alertState,
                ledPin := !s.alertState, serverConnected := true },
       [Event.httpPost ("http://" ++ discoverServer env.polls ++ ":5000/alert")
          ("name=" ++ s.config.deviceName)]) := by
  simp [toggleAlertState, sendAlert, hw, hd, hc]

theorem loopStep_button_fire (env : TickEnv) (s : DeviceState)
    (hh : s.halted = false) (hnb : s.isBlinking = false)
    (hboot : env.bootPinLow = false) (hcfg : s.config.configured = true)
    (hw : env.wifiConnected = true)
    (hchk : ¬ env.now - s.lastServerCheckTime > serverCheckInterval)
    (hsrv : s.serverConnected = true) (hbtn : env.buttonPinLow = true)
    (hd : env.now - s.lastDebounceTime > debounceDelay) :
    loopStep env s = toggleAlertState env.alertEnv
      { s with buttonPressStartTime := 0, lastDebounceTime := env.now } := by
  rw [loopStep_quiet env s hh hnb hboot]
  simp [loopRest, periodicServerCheck, alertButtonCheck, hcfg, hw, hchk,
    hsrv, hbtn, hd]

/-- C10: the alert-button check is level-triggered, not edge-triggered.
Across two consecutive ticks that both merely sample the pin low (no edge
in between), with the server connected and each tick strictly more than
`debounceDelay` (500 ms) after the previous fire, the toggle fires on both
ticks — two HTTP POSTs, the alert state flipped twice, and the debounce
gate re-armed to the clock of the second tick — so a continuously held button
re-triggers once per elapsed debounce window. -/
theorem alert_button_level_retrigger (e1 e2 : TickEnv) (s : DeviceState)
    (hh : s.halted = false) (hnb : s.isBlinking = false)
    (hcfg : s.config.configured = true) (hsrv : s.serverConnected = true)
    (hb1 : e1.bootPinLow = false) (hb2 : e2.bootPinLow = false)
    (hw1 : e1.wifiConnected = true) (hw2 : e2.wifiConnected = true)
    (hbtn1 : e1.buttonPinLow = true) (hbtn2 : e2.buttonPinLow = true)
    (hd1 : e1.now - s.lastDebounceTime > debounceDelay)
    (hd2 : e2.now - e1.now > debounceDelay)
    (hchk1 : ¬ e1.now - s.lastServerCheckTime > serverCheckInterval)
    (hchk2 : ¬ e2.now - s.lastServerCheckTime > serverCheckInterval)
    (ha1 : e1.alertEnv.wifiConnected = true)
    (ha2 : e2.alertEnv.wifiConnected = true)
    (hp1 : discoverServer e1.alertEnv.polls ≠ "")
    (hp2 : discoverServer e2.alertEnv.polls ≠ "")
    (hc1 : 0 < e1.alertEnv.httpCode) (hc2 : 0 < e2.alertEnv.httpCode) :
    (loopStep e1 s).1.alertState = !s.alertState
    ∧ (runTicks s [e1, e2]).1.alertState = s.alertState
    ∧ (runTicks s [e1, e2]).1.lastDebounceTime = e2.now
    ∧ (runTicks s [e1, e2]).2.length = 2 := by
  have h1 := loopStep_button_fire e1 s hh hnb hb1 hcfg hw1 hchk1 hsrv hbtn1 hd1
  have ht1 := toggleAlertState_commit e1.alertEnv
    { s with buttonPressStartTime := 0, lastDebounceTime := e1.now }
    ha1 hp1 hc1
  rw [ht1] at h1
  have h2 := loopStep_button_fire e2
    { s with buttonPressStartTime := 0, lastDebounceTime := e1.now,
             alertState := !s.alertState, ledState := !s.alertState,
             ledPin := !s.alertState, serverConnected := true }
    hh hnb hb2 hcfg hw2 hchk2 rfl hbtn2 hd2
  have ht2 := toggleAlertState_commit e2.alertEnv
    { s with buttonPressStartTime := 0, lastDebounceTime := e2.now,
             alertState := !s.alertState, ledState := !s.alertState,
             ledPin := !s.alertState, serverConnected := true }
    ha2 hp2 hc2
  rw [ht2] at h2
  simp only [runTicks, h1, h2]
  simp [Bool.not_not]

/-- Witness for `alert_button_level_retrigger`: the button held low across
two ticks 501 ms apart in a healthy environment. -/
theorem alert_button_level_retrigger_witness :
    tickHeldA.buttonPinLow = true ∧ tickHeldB.buttonPinLow = true
    ∧ tickHeldB.now - tickHeldA.now > debounceDelay
    ∧ ((loopStep tickHeldA exState).1.alertState = !exState.alertState
       ∧ (runTicks exState [tickHeldA, tickHeldB]).1.alertState
           = exState.alertState
       ∧ (runTicks exState [tickHeldA, tickHeldB]).1.lastDebounceTime
           = tickHeldB.now
       ∧ (runTicks exState [tickHeldA, tickHeldB]).2.length = 2) :=
  ⟨rfl, rfl, by decide,
   alert_button_level_retrigger tickHeldA tickHeldB exState rfl rfl rfl rfl
     rfl rfl rfl rfl rfl rfl (by decide) (by decide) (by decide) (by decide)
     rfl rfl (by decide) (by decide) (by decide) (by decide)⟩

end Esp32Alert
